import Mathlib

/-!
Shallow embedding of `pyrestest/tester.py`: the `Endpoint` accessor and the
`RestTester` ownership-CRUD test suite.

Modelling conventions:
* Python attribute/field values are modelled by `Value` (integers, strings and
  `None`); `pyStr` is Python's `str(...)`, `pyEq` is Python's `==` between
  such values, `pyTruthy` is Python truthiness.
* A persisted model item is a total attribute map `String → Value`
  (`getattr item key`); a payload/dict is an association list
  `List (String × Value)` whose key iteration order is the list order.
* A test body is a computation in `Except Failure Unit`: `assert` raises
  `Failure.assertionError`, a missing dict key raises `Failure.keyError`,
  and `raise NotImplementedError()` is `Failure.notImplementedError`.
  A test passes exactly when the computation is `Except.ok ()`.
* External collaborators (the ORM, the HTTP client/API, the subclass payload
  hooks and the external auth-user model) are oracles passed as parameters:
  each test queries them exactly as the Python code does, so quantifying over
  all oracles covers every behaviour of the real collaborators.
-/

namespace PyRestTest

/-- A Python value appearing in payloads and item attributes. -/
inductive Value where
  | int (n : Int)
  | str (s : String)
  | vnone
deriving DecidableEq, Repr

/-- Python `str(v)`. -/
def pyStr : Value → String
  | .int n => toString n
  | .str s => s
  | .vnone => "None"

/-- Python truthiness of a value (`if v:`). -/
def pyTruthy : Value → Bool
  | .int n => n != 0
  | .str s => s != ""
  | .vnone => false

/-- Python `==` between values: equal only within the same type. -/
def pyEq : Value → Value → Bool
  | .int n, .int m => n == m
  | .str a, .str b => a == b
  | .vnone, .vnone => true
  | _, _ => false

/-- The runtime type tag of a value (Python `type(v)`). -/
inductive PyType where
  | intT
  | strT
  | noneT
deriving DecidableEq, Repr

/-- `type(v)` of a value. -/
def typeTag : Value → PyType
  | .int _ => .intT
  | .str _ => .strT
  | .vnone => .noneT

/-- How a test body terminates abnormally: a failed `assert`, a
`NotImplementedError`, or a `KeyError` from a dict lookup. -/
inductive Failure where
  | assertionError
  | notImplementedError
  | keyError
deriving DecidableEq, Repr

/-- The result of running a test body. -/
abbrev TestResult := Except Failure Unit

/-- Python `assert b`. -/
def assertTrue (b : Bool) : TestResult :=
  if b then Except.ok () else Except.error Failure.assertionError

/-- A persisted model item, as a total attribute map (`getattr item key`). -/
abbrev Item := String → Value

/-- A payload / response-body dict, as an association list. -/
abbrev Payload := List (String × Value)

/-- Python dict subscript `p[k]`: raises `KeyError` when the key is absent. -/
def dictGet (p : Payload) (k : String) : Except Failure Value :=
  match p.lookup k with
  | some v => Except.ok v
  | none => Except.error Failure.keyError

/-- An HTTP test-client response: a status code and a deserialized body. -/
structure Response where
  status_code : Int
  data : Payload
deriving Repr

namespace Endpoint

/--
`Endpoint.set_user` from `tester.py`:

```
def set_user(self, user):
    if user:
        self._client.force_authenticate(user)
```

The client's authentication state is `Option U` (`none` = anonymous); user
objects are truthy, `None` is falsy, so a `none` argument leaves the
previous state untouched.
-/
def set_user {U : Type} (st : Option U) (user : Option U) : Option U :=
  match user with
  | some u => some u
  | none => st

end Endpoint

namespace RestTester

/--
`RestTester.assert_equal_item` from `tester.py`:

```
for key in data.keys():
    assert str(getattr(item, key)) == str(data[key])
```
-/
def assert_equal_item (item : Item) : Payload → TestResult
  | [] => Except.ok ()
  | (k, v) :: rest => do
      assertTrue (pyStr (item k) == pyStr v)
      assert_equal_item item rest

/-- The auth identity constructed by `RestTester.auth_user`: the record of
keyword arguments passed to the external `AUTH_USER_MODEL` constructor. -/
structure AuthUser where
  uuid : String
  email : String
  groups : List Value
  is_active : Bool
  is_staff : Bool
  subscription : Payload
deriving DecidableEq, Repr

/--
`RestTester.auth_user` from `tester.py`:

```
return self.AUTH_USER_MODEL(
    uuid=str(user_id or uuid.uuid4()),
    email=email, groups=[], is_active=True, is_staff=False,
    subscription=subscription)
```

`freshUuid` is the string form of the `uuid.uuid4()` the call would draw;
`user_id` is the argument value (`Value.vnone` for the Python default
`None`), and `user_id or uuid.uuid4()` is Python truthiness on it.
-/
def auth_user (freshUuid : String) (user_id : Value) (email : String)
    (subscription : Payload) : AuthUser :=
  { uuid := pyStr (if pyTruthy user_id then user_id else Value.str freshUuid)
    email := email
    groups := []
    is_active := true
    is_staff := false
    subscription := subscription }

/-- The subclass hooks and class attributes a concrete `RestTester`
subclass supplies: `get_create_payload`, `get_update_payload`,
`READONLY_FIELDS`. -/
structure Hooks where
  get_create_payload : Option Value → Payload
  get_update_payload : Payload → Bool → Payload
  readonly_fields : List String

/-- The collaborators queried by the GET-based tests: `MODEL.objects.create`
and the endpoint's HTTP GET (a function of the client auth state and pk). -/
structure GetEnv (U : Type) where
  create : Payload → Item
  get : Option U → Value → Response

/-- The collaborators queried by the PUT-based tests: `MODEL.objects.create`,
the endpoint's HTTP PUT, `MODEL.objects.get(pk=...)` after the PUT, and
`len(MODEL.objects.all())` after the PUT. -/
structure UpdateEnv (U : Type) where
  create : Payload → Item
  put : Option U → Value → Payload → Response
  getPk : Value → Item
  count : Nat

/--
`RestTester.test_get_by_owner` from `tester.py`. `mkUser` is the oracle for
`self.auth_user(x)` (the external user model), `user_id` the drawn
`uuid.uuid4()`; the endpoint starts anonymous (fresh `APIClient`).
-/
def test_get_by_owner {U : Type} (H : Hooks) (E : GetEnv U)
    (mkUser : Option Value → U) (user_id : Value) : TestResult :=
  let item := E.create (H.get_create_payload (some user_id))
  let st := Endpoint.set_user Option.none (some (mkUser (some user_id)))
  let response := E.get st (item "id")
  do
    assertTrue (response.status_code == 200)
    assert_equal_item item response.data

/-- `RestTester.test_anonymous_user_not_allowed` from `tester.py`: no
`set_user` call, so the GET is issued with the fresh client's anonymous
state. -/
def test_anonymous_user_not_allowed {U : Type} (H : Hooks) (E : GetEnv U) :
    TestResult :=
  let item := E.create (H.get_create_payload Option.none)
  let response := E.get (Option.none : Option U) (item "id")
  assertTrue (response.status_code == 401)

/-- `RestTester.test_get_non_owner_not_allowed` from `tester.py`: the item
is owned by `user_id`, the GET authenticates as `auth_user(other_id)` where
`other_id` is a second fresh `uuid.uuid4()`. -/
def test_get_non_owner_not_allowed {U : Type} (H : Hooks) (E : GetEnv U)
    (mkUser : Option Value → U) (user_id other_id : Value) : TestResult :=
  let item := E.create (H.get_create_payload (some user_id))
  let st := Endpoint.set_user Option.none (some (mkUser (some other_id)))
  let response := E.get st (item "id")
  assertTrue (response.status_code == 403)

/--
`RestTester._update` from `tester.py`:

```
payload = self.get_create_payload(owner.id)
item = self.MODEL.objects.create(**payload)
payload = self.get_update_payload(payload, readonly)
self._endpoint.set_user(auth_user)
response = self._endpoint.put(pk=item.id, payload=payload)
return item.id, payload, response
```

`idOf` is attribute access `owner.id` on the external user object.
-/
def update {U : Type} (H : Hooks) (E : UpdateEnv U) (idOf : U → Value)
    (owner : U) (authUser : Option U) (readonly : Bool) :
    Value × Payload × Response :=
  let payload := H.get_create_payload (some (idOf owner))
  let item := E.create payload
  let payload2 := H.get_update_payload payload readonly
  let st := Endpoint.set_user Option.none authUser
  let response := E.put st (item "id") payload2
  (item "id", payload2, response)

/-- `RestTester.test_put_owner` from `tester.py`: `owner = self.auth_user()`
then `_update(owner=owner, auth_user=owner)`. -/
def test_put_owner {U : Type} (H : Hooks) (E : UpdateEnv U)
    (idOf : U → Value) (mkUser : Option Value → U) : TestResult :=
  let owner := mkUser Option.none
  let r := update H E idOf owner (some owner) false
  do
    assertTrue (r.2.2.status_code == 200)
    assert_equal_item (E.getPk r.1) r.2.1

/--
The read-only loop inside `RestTester.test_readonly_fields`:

```
for key in self.READONLY_FIELDS:
    assert getattr(item, key) != payload[key]
```
-/
def check_readonly (item : Item) (payload : Payload) :
    List String → TestResult
  | [] => Except.ok ()
  | k :: rest => do
      let v ← dictGet payload k
      assertTrue (!(pyEq (item k) v))
      check_readonly item payload rest

/-- `RestTester.test_readonly_fields` from `tester.py`. -/
def test_readonly_fields {U : Type} (H : Hooks) (E : UpdateEnv U)
    (idOf : U → Value) (mkUser : Option Value → U) : TestResult :=
  let owner := mkUser Option.none
  let r := update H E idOf owner (some owner) true
  do
    assertTrue (r.2.2.status_code == 200)
    let item := E.getPk r.1
    check_readonly item r.2.1 H.readonly_fields
    assertTrue (E.count == 1)

/-- Whether `test_create` carries `@abc.abstractmethod` in the source. -/
def test_create_isAbstract : Bool := true

/-- Whether `test_list_by_owner` carries `@abc.abstractmethod` in the
source. -/
def test_list_by_owner_isAbstract : Bool := true

/-- Whether `test_delete` carries `@abc.abstractmethod` in the source: it
does not — it is decorated only with `@pytest.mark.django_db`. -/
def test_delete_isAbstract : Bool := false

/-- The base-class body of `test_create`: `raise NotImplementedError()`. -/
def test_create_base : TestResult := Except.error Failure.notImplementedError

/-- The base-class body of `test_list_by_owner`:
`raise NotImplementedError()`. -/
def test_list_by_owner_base : TestResult :=
  Except.error Failure.notImplementedError

/-- The base-class body of `test_delete`: `raise NotImplementedError()`. -/
def test_delete_base : TestResult := Except.error Failure.notImplementedError

end RestTester

/-! Helper lemmas about the `Except`-based test bodies. -/

theorem assertTrue_ok_iff (b : Bool) :
    assertTrue b = Except.ok () ↔ b = true := by
  cases b <;> simp [assertTrue]

theorem seq_ok_iff (a : TestResult) (b : Unit → TestResult) :
    (a >>= b) = Except.ok () ↔ a = Except.ok () ∧ b () = Except.ok () := by
  cases a with
  | error e => simp [Bind.bind, Except.bind]
  | ok u => cases u; simp [Bind.bind, Except.bind]

theorem bindVal_ok_iff {α : Type} (a : Except Failure α) (f : α → TestResult) :
    (a >>= f) = Except.ok () ↔
      ∃ x, a = Except.ok x ∧ f x = Except.ok () := by
  cases a <;> simp [Bind.bind, Except.bind]

theorem ok_bind {α β : Type} (a : α) (f : α → Except Failure β) :
    (Except.ok a >>= f) = f a := rfl

theorem error_bind {α β : Type} (e : Failure) (f : α → Except Failure β) :
    ((Except.error e : Except Failure α) >>= f) = Except.error e := rfl

theorem assert_equal_item_ok (item : Item) (data : Payload) :
    RestTester.assert_equal_item item data = Except.ok () ↔
      ∀ kv ∈ data, pyStr (item kv.1) = pyStr kv.2 := by
  induction data with
  | nil => simp [RestTester.assert_equal_item]
  | cons kv rest ih =>
      obtain ⟨k, v⟩ := kv
      simp [RestTester.assert_equal_item, seq_ok_iff, assertTrue_ok_iff, ih]

theorem dictGet_ok_iff (p : Payload) (k : String) (v : Value) :
    dictGet p k = Except.ok v ↔ p.lookup k = some v := by
  unfold dictGet
  cases h : p.lookup k <;> simp

theorem check_readonly_ok (item : Item) (payload : Payload)
    (ks : List String) :
    RestTester.check_readonly item payload ks = Except.ok () ↔
      ∀ k ∈ ks, ∃ v, payload.lookup k = some v ∧
        pyEq (item k) v = false := by
  induction ks with
  | nil => simp [RestTester.check_readonly]
  | cons k rest ih =>
      cases h : payload.lookup k with
      | none =>
          simp [RestTester.check_readonly, dictGet, h, error_bind]
      | some v =>
          simp [RestTester.check_readonly, dictGet, h, ok_bind,
            seq_ok_iff, assertTrue_ok_iff, ih]

theorem pyEq_eq_false_of_typeTag_ne (a b : Value)
    (h : typeTag a ≠ typeTag b) : pyEq a b = false := by
  cases a <;> cases b <;> first | exact absurd rfl h | rfl

/-! Claim theorems. -/

/-- C1, counterexample: with the client already authenticated as a user,
`set_user(None)` does not make the client anonymous — the previous
authentication state survives, contradicting the claim that a none/absent
argument makes all subsequent calls anonymous even when an identity was set
earlier. -/
theorem set_user_none_keeps_previous_user :
    Endpoint.set_user (some (Value.str "alice")) (Option.none : Option Value)
      ≠ (Option.none : Option Value) := by
  decide

/-- C1, amended: `set_user` with an identity attributes all subsequent
calls to that identity; `set_user` with none/absent is a no-op that leaves
the client's previous authentication state unchanged (so subsequent calls
are anonymous only when no identity was set earlier); the only effect is on
the client authentication state. -/
theorem set_user_spec {U : Type} (st : Option U) (u : U) :
    Endpoint.set_user st (some u) = some u ∧
      Endpoint.set_user st Option.none = st :=
  ⟨rfl, rfl⟩

/-- C2: `assert_equal_item` succeeds exactly when, for every key of the
comparison payload, the string form of the item's attribute named by that
key equals the string form of the payload's value for that key. -/
theorem assert_equal_item_iff_all_str_eq (item : Item) (data : Payload) :
    RestTester.assert_equal_item item data = Except.ok () ↔
      ∀ kv ∈ data, pyStr (item kv.1) = pyStr kv.2 :=
  assert_equal_item_ok item data

/-- C7, counterexample: `test_delete` is not an abstract member — in the
source it carries no `abc.abstractmethod` decorator (only
`pytest.mark.django_db`), so the claim that all three of create,
list-by-owner and delete are abstract must-override members is false. -/
theorem test_delete_not_abstract :
    RestTester.test_delete_isAbstract ≠ true := by
  decide

/-- C7, amended: `test_create` and `test_list_by_owner` are abstract
must-override members; `test_delete` is a concrete member; all three base
implementations raise a not-implemented failure, which is distinct in kind
from the assertion failure an `assert` can raise. -/
theorem abstract_members_spec :
    RestTester.test_create_isAbstract = true ∧
    RestTester.test_list_by_owner_isAbstract = true ∧
    RestTester.test_delete_isAbstract = false ∧
    RestTester.test_create_base = Except.error Failure.notImplementedError ∧
    RestTester.test_list_by_owner_base
      = Except.error Failure.notImplementedError ∧
    RestTester.test_delete_base = Except.error Failure.notImplementedError ∧
    (∀ b : Bool, assertTrue b ≠ Except.error Failure.notImplementedError) := by
  refine ⟨rfl, rfl, rfl, rfl, rfl, rfl, ?_⟩
  intro b
  cases b <;> simp [assertTrue]

/-- C8, counterexample: `auth_user` called with the supplied identifier
`""` (a falsy but present value) does not carry it — `user_id or
uuid.uuid4()` replaces any falsy identifier by a freshly generated uuid. -/
theorem auth_user_empty_id_not_carried :
    (RestTester.auth_user "11111111-2222-3333-4444-555555555555"
        (Value.str "") "foo@example.com" []).uuid
      ≠ pyStr (Value.str "") := by
  decide

/-- C8, amended: the identity constructed by `auth_user` carries the string
form of the supplied identifier when that identifier is truthy; when the
identifier is absent (`None`) or falsy (e.g. the empty string) it carries a
freshly generated uuid instead; it carries the supplied email, an empty
group list, `is_active = True`, `is_staff = False`, and the supplied
subscription attribute. -/
theorem auth_user_fields_spec (freshUuid : String) (user_id : Value)
    (email : String) (subscription : Payload) :
    (RestTester.auth_user freshUuid user_id email subscription).uuid
        = (if pyTruthy user_id then pyStr user_id else freshUuid) ∧
    (RestTester.auth_user freshUuid user_id email subscription).email
        = email ∧
    (RestTester.auth_user freshUuid user_id email subscription).groups
        = [] ∧
    (RestTester.auth_user freshUuid user_id email subscription).is_active
        = true ∧
    (RestTester.auth_user freshUuid user_id email subscription).is_staff
        = false ∧
    (RestTester.auth_user freshUuid user_id email
        subscription).subscription = subscription := by
  refine ⟨?_, rfl, rfl, rfl, rfl, rfl⟩
  by_cases h : pyTruthy user_id <;> simp [RestTester.auth_user, h, pyStr]

/-- C9: `assert_equal_item` only reads the item at the keys present in the
comparison payload — two items agreeing on those keys yield the same
result, so attributes outside the payload are never compared and cannot
cause the check to fail. -/
theorem assert_equal_item_one_sided (item1 item2 : Item) (data : Payload)
    (h : ∀ kv ∈ data, item1 kv.1 = item2 kv.1) :
    RestTester.assert_equal_item item1 data
      = RestTester.assert_equal_item item2 data := by
  induction data with
  | nil => rfl
  | cons kv rest ih =>
      obtain ⟨k, v⟩ := kv
      have hk : item1 k = item2 k := h (k, v) (List.mem_cons_self _ _)
      have hr : ∀ kv ∈ rest, item1 kv.1 = item2 kv.1 :=
        fun kv hkv => h kv (List.mem_cons_of_mem _ hkv)
      simp [RestTester.assert_equal_item, hk, ih hr]

/-- C5: the get-by-owner test passes exactly when the GET on the created
item's detail pk, authenticated as the owner identity, returns status 200
and a body every key of which stringwise matches the persisted item's
attribute of that name. -/
theorem test_get_by_owner_ok_iff {U : Type} (H : RestTester.Hooks)
    (E : RestTester.GetEnv U) (mkUser : Option Value → U)
    (user_id : Value) :
    RestTester.test_get_by_owner H E mkUser user_id = Except.ok () ↔
      (let item := E.create (H.get_create_payload (some user_id))
       let response := E.get (some (mkUser (some user_id))) (item "id")
       response.status_code = 200 ∧
         ∀ kv ∈ response.data, pyStr (item kv.1) = pyStr kv.2) := by
  simp [RestTester.test_get_by_owner, Endpoint.set_user, seq_ok_iff,
    assertTrue_ok_iff, assert_equal_item_ok]

/-- C4: the anonymous-get test passes exactly when the unauthenticated GET
on the created item's detail pk returns status 401, and the non-owner test
passes exactly when the GET authenticated as a distinct identity returns
status 403. -/
theorem denied_get_tests_ok_iff {U : Type} (H : RestTester.Hooks)
    (E : RestTester.GetEnv U) (mkUser : Option Value → U)
    (user_id other_id : Value) (_hne : user_id ≠ other_id) :
    (RestTester.test_anonymous_user_not_allowed H E = Except.ok () ↔
      (E.get Option.none
          ((E.create (H.get_create_payload Option.none)) "id")).status_code
        = 401) ∧
    (RestTester.test_get_non_owner_not_allowed H E mkUser user_id other_id
        = Except.ok () ↔
      (E.get (some (mkUser (some other_id)))
          ((E.create
            (H.get_create_payload (some user_id))) "id")).status_code
        = 403) := by
  constructor <;>
    simp [RestTester.test_anonymous_user_not_allowed,
      RestTester.test_get_non_owner_not_allowed, Endpoint.set_user,
      assertTrue_ok_iff]

/-- Sample subclass hooks for witnesses. -/
def witnessHooks : RestTester.Hooks :=
  { get_create_payload := fun _ => [("id", Value.int 1)]
    get_update_payload := fun p _ => p
    readonly_fields := [] }

/-- Sample GET collaborators for witnesses: anonymous GETs answer 401,
authenticated GETs answer 403. -/
def witnessGetEnv : RestTester.GetEnv Value :=
  { create := fun _ => fun k => if k = "id" then Value.int 1 else Value.vnone
    get := fun st _ =>
      match st with
      | Option.none => { status_code := 401, data := [] }
      | some _ => { status_code := 403, data := [] } }

/-- Sample auth-user oracle for witnesses. -/
def witnessMkUser : Option Value → Value := fun o => o.getD Value.vnone

/-- C4 witness: the two iffs at concrete collaborators and two distinct
identities. -/
theorem denied_get_tests_witness :
    (Value.int 0 ≠ Value.int 1) ∧
    ((RestTester.test_anonymous_user_not_allowed witnessHooks witnessGetEnv
        = Except.ok () ↔
      (witnessGetEnv.get Option.none
          ((witnessGetEnv.create
            (witnessHooks.get_create_payload Option.none)) "id")).status_code
        = 401) ∧
    (RestTester.test_get_non_owner_not_allowed witnessHooks witnessGetEnv
        witnessMkUser (Value.int 0) (Value.int 1) = Except.ok () ↔
      (witnessGetEnv.get (some (witnessMkUser (some (Value.int 1))))
          ((witnessGetEnv.create
            (witnessHooks.get_create_payload
              (some (Value.int 0)))) "id")).status_code
        = 403)) :=
  ⟨by decide,
    denied_get_tests_ok_iff witnessHooks witnessGetEnv witnessMkUser
      (Value.int 0) (Value.int 1) (by decide)⟩

/-- C6: the put-by-owner test passes exactly when the PUT of the update
payload on the created item's detail pk, authenticated as the owner,
returns status 200 and the re-fetched persisted item stringwise matches
every field of the update payload. -/
theorem test_put_owner_ok_iff {U : Type} (H : RestTester.Hooks)
    (E : RestTester.UpdateEnv U) (idOf : U → Value)
    (mkUser : Option Value → U) :
    RestTester.test_put_owner H E idOf mkUser = Except.ok () ↔
      (let owner := mkUser Option.none
       let payload0 := H.get_create_payload (some (idOf owner))
       let itemId := (E.create payload0) "id"
       let payload := H.get_update_payload payload0 false
       let response := E.put (some owner) itemId payload
       response.status_code = 200 ∧
         ∀ kv ∈ payload, pyStr ((E.getPk itemId) kv.1) = pyStr kv.2) := by
  simp [RestTester.test_put_owner, RestTester.update, Endpoint.set_user,
    seq_ok_iff, assertTrue_ok_iff, assert_equal_item_ok]

/-- C3: the readonly-fields test passes exactly when the PUT of the
readonly-update payload by the owner returns status 200, every read-only
field of the re-fetched item differs (by direct Python inequality) from
the attempted payload value for that field, and exactly one item of the
model exists afterwards. -/
theorem test_readonly_fields_ok_iff {U : Type} (H : RestTester.Hooks)
    (E : RestTester.UpdateEnv U) (idOf : U → Value)
    (mkUser : Option Value → U) :
    RestTester.test_readonly_fields H E idOf mkUser = Except.ok () ↔
      (let owner := mkUser Option.none
       let payload0 := H.get_create_payload (some (idOf owner))
       let itemId := (E.create payload0) "id"
       let payload := H.get_update_payload payload0 true
       let response := E.put (some owner) itemId payload
       let item := E.getPk itemId
       response.status_code = 200 ∧
         (∀ k ∈ H.readonly_fields, ∃ v, payload.lookup k = some v ∧
           pyEq (item k) v = false) ∧
         E.count = 1) := by
  simp [RestTester.test_readonly_fields, RestTester.update,
    Endpoint.set_user, seq_ok_iff, assertTrue_ok_iff, check_readonly_ok]

/-- A sample item for the C9 witness: agrees with `witnessItemB` on key
`"a"` only. -/
def witnessItemA : Item :=
  fun k => if k = "a" then Value.int 1 else Value.int 2

/-- A sample item for the C9 witness: differs from `witnessItemA` outside
key `"a"`. -/
def witnessItemB : Item :=
  fun k => if k = "a" then Value.int 1 else Value.int 3

/-- C9 witness: two items differing outside the payload's keys give the
same `assert_equal_item` result. -/
theorem assert_equal_item_one_sided_witness :
    (∀ kv ∈ ([("a", Value.int 1)] : Payload),
        witnessItemA kv.1 = witnessItemB kv.1) ∧
    RestTester.assert_equal_item witnessItemA [("a", Value.int 1)]
      = RestTester.assert_equal_item witnessItemB [("a", Value.int 1)] := by
  have h : ∀ kv ∈ ([("a", Value.int 1)] : Payload),
      witnessItemA kv.1 = witnessItemB kv.1 := by
    intro kv hkv
    simp only [List.mem_singleton] at hkv
    subst hkv
    rfl
  exact ⟨h, assert_equal_item_one_sided witnessItemA witnessItemB _ h⟩

/-- C10: the read-only loop of `test_readonly_fields` uses direct Python
inequality, not the stringwise conversion of `assert_equal_item`: whenever
each read-only field's stored value and attempted payload value agree in
string form but differ in runtime type, the check still passes. -/
theorem readonly_check_passes_on_type_mismatch (item : Item)
    (payload : Payload) (ks : List String)
    (h : ∀ k ∈ ks, ∃ v, payload.lookup k = some v ∧
        pyStr (item k) = pyStr v ∧ typeTag (item k) ≠ typeTag v) :
    RestTester.check_readonly item payload ks = Except.ok () := by
  rw [check_readonly_ok]
  intro k hk
  obtain ⟨v, hv, _hstr, hty⟩ := h k hk
  exact ⟨v, hv, pyEq_eq_false_of_typeTag_ne _ _ hty⟩

/-- A sample item for the C10 witness: every attribute is the integer 5. -/
def witnessItemC : Item := fun _ => Value.int 5

/-- C10 witness: stored integer `5` versus attempted string `"5"` — equal
in string form, different in type — and the read-only check passes. -/
theorem readonly_check_type_mismatch_witness :
    (∀ k ∈ ["id"], ∃ v,
        ([("id", Value.str "5")] : Payload).lookup k = some v ∧
        pyStr (witnessItemC k) = pyStr v ∧
        typeTag (witnessItemC k) ≠ typeTag v) ∧
    RestTester.check_readonly witnessItemC [("id", Value.str "5")] ["id"]
      = Except.ok () := by
  have h : ∀ k ∈ ["id"], ∃ v,
      ([("id", Value.str "5")] : Payload).lookup k = some v ∧
      pyStr (witnessItemC k) = pyStr v ∧
      typeTag (witnessItemC k) ≠ typeTag v := by
    intro k hk
    simp only [List.mem_singleton] at hk
    subst hk
    exact ⟨Value.str "5", by decide, rfl, by decide⟩
  exact ⟨h, readonly_check_passes_on_type_mismatch witnessItemC _ _ h⟩

end PyRestTest
